import Mathlib

/-!
Verification of the traffic-intersection coordination program (`tc.c`).

The C source is shallowly embedded: pure helper functions become Lean
functions over `Char`, `Int`, `Nat` and `ℚ`; the quadrant lock becomes an
explicit state-transition system; the per-thread control flow of a car
becomes a concrete event trace.  Times (`double` in C) are modelled as `ℚ`;
C `int` values as `Int` where the sentinel `-1` matters and as `Nat` where
only non-negative values occur.
-/

namespace TC

/-- Time constants in microseconds (`#define`s in the source). -/
def STOP_TIME : Nat := 2000000

/-- Left turn crossing time in microseconds. -/
def DELTA_L : Nat := 5000000

/-- Straight crossing time in microseconds. -/
def DELTA_S : Nat := 4000000

/-- Right turn crossing time in microseconds. -/
def DELTA_R : Nat := 3000000

/-- Direction index for North. -/
def DIR_N : Int := 0

/-- Direction index for South. -/
def DIR_S : Int := 1

/-- Direction index for East. -/
def DIR_E : Int := 2

/-- Direction index for West. -/
def DIR_W : Int := 3

/-- Quadrant index NW. -/
def Q_NW : Nat := 0

/-- Quadrant index NE. -/
def Q_NE : Nat := 1

/-- Quadrant index SW. -/
def Q_SW : Nat := 2

/-- Quadrant index SE. -/
def Q_SE : Nat := 3

/-- Number of quadrants. -/
def NUM_QUADS : Nat := 4

/-- Number of cars in the hardcoded scenario. -/
def NUM_CARS : Nat := 8

/-- The four-symbol direction alphabet used by the program. -/
def validDirChars : List Char := ['^', 'v', '>', '<']

/-- Direction pair for each car (struct `directions`). -/
structure directions where
  dir_original : Char
  dir_target : Char
deriving DecidableEq

/-- Per-car state tracking (struct `car_info`).  C `double` times are
modelled as `ℚ`; C `int` flags as `Bool`. -/
structure car_info where
  cid : Int
  arrival_time : ℚ
  dir : directions
  stop_complete_time : ℚ
  at_front : Bool
  waiting : Bool
  crossing : Bool
  done : Bool
deriving DecidableEq

/-- `dir_to_index`: converts a direction character to its index,
returning the sentinel `-1` on any unrecognized character. -/
def dir_to_index (d : Char) : Int :=
  if d = '^' then DIR_N
  else if d = 'v' then DIR_S
  else if d = '>' then DIR_E
  else if d = '<' then DIR_W
  else -1

/-- `get_turn_type`: 0 = straight, 1 = left, 2 = right. -/
def get_turn_type (orig target : Char) : Nat :=
  if orig = target then 0
  else if (orig = '^' ∧ target = '<') ∨ (orig = 'v' ∧ target = '>') ∨
          (orig = '>' ∧ target = '^') ∨ (orig = '<' ∧ target = 'v') then 1
  else 2

/-- `get_crossing_time`: returns `DELTA_L`, `DELTA_S` or `DELTA_R`
according to the turn type. -/
def get_crossing_time (turn : Nat) : Nat :=
  if turn = 1 then DELTA_L
  else if turn = 0 then DELTA_S
  else DELTA_R

/-- `get_quadrant_mask`: bitmask of quadrants needed for the movement,
0 for an unrecognized origin character. -/
def get_quadrant_mask (orig target : Char) : Nat :=
  let turn := get_turn_type orig target
  if orig = '^' then
    if turn = 2 then (1 <<< Q_SW)
    else if turn = 0 then (1 <<< Q_SW) ||| (1 <<< Q_NW)
    else (1 <<< Q_SW) ||| (1 <<< Q_NW) ||| (1 <<< Q_NE)
  else if orig = 'v' then
    if turn = 2 then (1 <<< Q_NE)
    else if turn = 0 then (1 <<< Q_NE) ||| (1 <<< Q_SE)
    else (1 <<< Q_NE) ||| (1 <<< Q_SE) ||| (1 <<< Q_SW)
  else if orig = '>' then
    if turn = 2 then (1 <<< Q_NW)
    else if turn = 0 then (1 <<< Q_NW) ||| (1 <<< Q_NE)
    else (1 <<< Q_NW) ||| (1 <<< Q_NE) ||| (1 <<< Q_SE)
  else if orig = '<' then
    if turn = 2 then (1 <<< Q_SE)
    else if turn = 0 then (1 <<< Q_SE) ||| (1 <<< Q_SW)
    else (1 <<< Q_SE) ||| (1 <<< Q_SW) ||| (1 <<< Q_NW)
  else 0

/-- The quadrant indices selected by a mask, in the ascending order in
which `CrossIntersection`'s first loop (`for q = 0 .. NUM_QUADS-1`)
acquires them. -/
def acquireOrder (mask : Nat) : List Nat :=
  (List.range NUM_QUADS).filter (fun q => mask &&& (1 <<< q) != 0)

/-- The quadrant indices selected by a mask, in the descending order in
which `CrossIntersection`'s last loop (`for q = NUM_QUADS-1 .. 0`)
releases them. -/
def releaseOrder (mask : Nat) : List Nat :=
  (List.range NUM_QUADS).reverse.filter (fun q => mask &&& (1 <<< q) != 0)

/-- Quadrant lock state (struct `quadrant_t`): `owner_dir` is `-1` when
free, otherwise a direction index; `count` is the number of same-direction
holders.  `holders` is an auxiliary ghost list recording the direction of
each car currently holding the quadrant, used to state mutual exclusion;
it is not stored by the C struct but is determined by the acquire/release
history. -/
structure quadrant_t where
  owner_dir : Int
  count : Int
  holders : List Int
deriving DecidableEq

/-- `acquire_quad`: the C function blocks while
`owner_dir ∉ {-1, dir}`; here the blocked case is `none` and the
successful case performs the C body: `owner_dir = dir; count++`, with the
ghost holder list extended. -/
def acquire_quad (s : quadrant_t) (dir : Int) : Option quadrant_t :=
  if s.owner_dir = -1 ∨ s.owner_dir = dir then
    some { owner_dir := dir, count := s.count + 1, holders := dir :: s.holders }
  else
    none

/-- `release_quad`: `count--`; when the count reaches 0 the owner is reset
to `-1` (and the C code broadcasts on the condition variable).  The ghost
holder list drops one occurrence of the releasing car's direction. -/
def release_quad (s : quadrant_t) (dir : Int) : quadrant_t :=
  { owner_dir := if s.count - 1 = 0 then -1 else s.owner_dir,
    count := s.count - 1,
    holders := s.holders.erase dir }

/-- The initial quadrant state set up by `init_system`:
`owner_dir = -1`, `count = 0`. -/
def initQuad : quadrant_t := { owner_dir := -1, count := 0, holders := [] }

/-- One interleaving step on a quadrant: either some car with a valid
direction `d` completes `acquire_quad` (which requires the quadrant to be
free or already owned by `d`), or a current holder performs
`release_quad`. -/
inductive QuadStep : quadrant_t → quadrant_t → Prop where
  | acq {s s' : quadrant_t} {d : Int} (hv : 0 ≤ d ∧ d < 4)
      (h : acquire_quad s d = some s') : QuadStep s s'
  | rel {s : quadrant_t} {d : Int} (hmem : d ∈ s.holders) :
      QuadStep s (release_quad s d)

/-- States reachable from the initial quadrant state by any interleaving
of acquire and release steps. -/
inductive QuadReach : quadrant_t → Prop where
  | init : QuadReach initQuad
  | step {s s' : quadrant_t} : QuadReach s → QuadStep s s' → QuadReach s'

/-- The quadrant lock invariant of the spec, together with the auxiliary
fact that `count` counts the ghost holders. -/
def quadInv (s : quadrant_t) : Prop :=
  s.count = (s.holders.length : Int) ∧
  (0 < s.count → s.owner_dir ≠ -1) ∧
  (s.count = 0 → s.owner_dir = -1) ∧
  (∀ h ∈ s.holders, h = s.owner_dir)

theorem quadInv_init : quadInv initQuad := by
  refine ⟨rfl, ?_, fun _ => rfl, ?_⟩
  · intro h; simp [initQuad] at h
  · intro h hmem; simp [initQuad] at hmem

theorem quadInv_step {s s' : quadrant_t} (hinv : quadInv s)
    (hstep : QuadStep s s') : quadInv s' := by
  obtain ⟨hlen, hpos, hzero, hall⟩ := hinv
  cases hstep with
  | acq hv h =>
      next d =>
      simp only [acquire_quad] at h
      split at h
      case isFalse => exact absurd h (by simp)
      case isTrue hguard =>
      have hs' : s' = ⟨d, s.count + 1, d :: s.holders⟩ :=
        (Option.some.inj h).symm
      subst hs'
      have hcnt : (0 : Int) ≤ s.count := by
        rw [hlen]; exact_mod_cast Nat.zero_le _
      refine ⟨by simp [hlen], ?_, ?_, ?_⟩
      · intro _
        show d ≠ -1
        omega
      · intro hc
        exact absurd hc (by simp; omega)
      · intro h hmem
        rcases List.mem_cons.mp hmem with hh | hh
      -- head holder is the acquiring direction itself
        · exact hh
        · have hho : h = s.owner_dir := hall h hh
          rcases hguard with hfree | hown
          · have hc0 : s.count = 0 := by
              by_contra hne
              exact (hpos (lt_of_le_of_ne hcnt (Ne.symm hne))) hfree
            have hl0 : s.holders.length = 0 := by omega
            exact absurd hh (by simp [List.length_eq_zero.mp hl0])
          · rw [hho, hown]
  | rel hmem =>
      next d =>
      have hlenpos : 0 < s.holders.length :=
        List.length_pos.mpr (List.ne_nil_of_mem hmem)
      have hcntpos : 0 < s.count := by
        rw [hlen]; exact_mod_cast hlenpos
      have hlen' : (s.holders.erase d).length = s.holders.length - 1 :=
        List.length_erase_of_mem hmem
      refine ⟨?_, ?_, ?_, ?_⟩
      · show s.count - 1 = ((s.holders.erase d).length : Int)
        rw [hlen']
        omega
      · intro hc
        have hc' : 0 < s.count - 1 := hc
        show (if s.count - 1 = 0 then -1 else s.owner_dir) ≠ -1
        rw [if_neg (by omega)]
        exact hpos hcntpos
      · intro hc
        have hc' : s.count - 1 = 0 := hc
        show (if s.count - 1 = 0 then -1 else s.owner_dir) = -1
        rw [if_pos hc']
      · intro h hmem'
        show h = (if s.count - 1 = 0 then -1 else s.owner_dir)
        have hh : h ∈ s.holders := List.mem_of_mem_erase hmem'
        by_cases hc : s.count - 1 = 0
        · have hl0 : s.holders.erase d = [] := List.length_eq_zero.mp (by omega)
          have hmem2 : h ∈ s.holders.erase d := hmem'
          rw [hl0] at hmem2
          exact absurd hmem2 (List.not_mem_nil h)
        · rw [if_neg hc]
          exact hall h hh

/-- `earlier_car_waiting`: scans the global car table and reports whether
some other car — not done, from a different origin-direction index, with a
set (`> 0`) and strictly earlier `stop_complete_time` — is at the front of
its line, waiting, and not crossing.  The C loop over `cars[0..NUM_CARS-1]`
is modelled as a scan over a list. -/
def earlier_car_waiting (cars : List car_info) (car : car_info) : Bool :=
  cars.any fun c =>
    (c.cid != car.cid) && (!c.done) &&
    (dir_to_index c.dir.dir_original != dir_to_index car.dir.dir_original) &&
    (decide (0 < c.stop_complete_time)) &&
    (decide (c.stop_complete_time < car.stop_complete_time)) &&
    c.at_front && c.waiting && (!c.crossing)

/-- Construction of one car record, as done by the compound literals in
`init_cars`: identity, arrival time and direction pair are stored verbatim
and all mutable fields start at zero/false.  No validation is performed. -/
def init_car (cid : Int) (arrival : ℚ) (orig target : Char) : car_info :=
  { cid := cid, arrival_time := arrival, dir := ⟨orig, target⟩,
    stop_complete_time := 0, at_front := false, waiting := false,
    crossing := false, done := false }

/-- The hardcoded scenario built by `init_cars`. -/
def init_cars : List car_info :=
  [init_car 1 (11/10) '^' '^',
   init_car 2 (22/10) '^' '^',
   init_car 3 (33/10) '^' '<',
   init_car 4 (44/10) 'v' 'v',
   init_car 5 (55/10) 'v' '>',
   init_car 6 (66/10) '^' '^',
   init_car 7 (77/10) '>' '^',
   init_car 8 (88/10) '<' '^']

/-- Abstract events performed by one car thread, in program order. -/
inductive Event where
  | printEv (label : String)
  | spin (usec : Nat)
  | recordStop
  | lockDir (d : Int)
  | setFrontWaiting
  | fairWait
  | acquireQ (q : Nat)
  | setCrossingFlags
  | unlockDir (d : Int)
  | clearCrossing
  | releaseQ (q : Nat)
  | setDone
deriving DecidableEq

/-- The event sequence of `ArriveIntersection`: log "arriving", spin for
the mandatory stop, record `stop_complete_time`, lock the direction gate,
set `at_front`/`waiting` and broadcast, then run the fairness wait loop. -/
def arriveTrace (car : car_info) : List Event :=
  let dir := dir_to_index car.dir.dir_original
  [Event.printEv "arriving", Event.spin STOP_TIME, Event.recordStop,
   Event.lockDir dir, Event.setFrontWaiting, Event.fairWait]

/-- The event sequence of `CrossIntersection`: acquire the masked
quadrants in ascending index order, flip the flags to crossing, unlock the
direction gate, log "crossing", spin for the crossing time, clear the
crossing flag, release the masked quadrants in descending index order. -/
def crossTrace (car : car_info) : List Event :=
  let dir := dir_to_index car.dir.dir_original
  let turn := get_turn_type car.dir.dir_original car.dir.dir_target
  let cross_time := get_crossing_time turn
  let mask := get_quadrant_mask car.dir.dir_original car.dir.dir_target
  (acquireOrder mask).map Event.acquireQ ++
  [Event.setCrossingFlags, Event.unlockDir dir,
   Event.printEv "crossing", Event.spin cross_time, Event.clearCrossing] ++
  (releaseOrder mask).map Event.releaseQ

/-- The event sequence of `ExitIntersection`. -/
def exitTrace (_car : car_info) : List Event :=
  [Event.printEv "exiting", Event.setDone]

/-- The full event sequence of `car_thread`:
`ArriveIntersection`, then `CrossIntersection`, then `ExitIntersection`. -/
def carTrace (car : car_info) : List Event :=
  arriveTrace car ++ crossTrace car ++ exitTrace car

theorem quadInv_reach {s : quadrant_t} (h : QuadReach s) : quadInv s := by
  induction h with
  | init => exact quadInv_init
  | step _ hstep ih => exact quadInv_step ih hstep

/-- C1: for a car with a valid origin direction, `earlier_car_waiting` is
true iff some other car in the table — with a different cid, not done,
with a different origin-direction index, a set (`> 0`) and strictly
earlier `stop_complete_time` — is at front of its line, waiting, and not
crossing. -/
theorem earlier_car_waiting_iff (cars : List car_info) (car : car_info)
    (_hvalid : dir_to_index car.dir.dir_original ≠ -1) :
    earlier_car_waiting cars car = true ↔
      ∃ c ∈ cars, c.cid ≠ car.cid ∧ c.done = false ∧
        dir_to_index c.dir.dir_original ≠ dir_to_index car.dir.dir_original ∧
        0 < c.stop_complete_time ∧
        c.stop_complete_time < car.stop_complete_time ∧
        c.at_front = true ∧ c.waiting = true ∧ c.crossing = false := by
  simp only [earlier_car_waiting, List.any_eq_true, Bool.and_eq_true,
    bne_iff_ne, Bool.not_eq_true', decide_eq_true_eq, ne_eq, and_assoc]

/-- A concrete car used to instantiate the fairness predicate: a North
car that finished its stop at time 2. -/
def sampleCarA : car_info :=
  { cid := 1, arrival_time := 0, dir := ⟨'^', '^'⟩, stop_complete_time := 2,
    at_front := true, waiting := true, crossing := false, done := false }

/-- A concrete car used to instantiate the fairness predicate: a South
car that finished its stop at time 1 and is still waiting at front. -/
def sampleCarB : car_info :=
  { cid := 2, arrival_time := 0, dir := ⟨'v', 'v'⟩, stop_complete_time := 1,
    at_front := true, waiting := true, crossing := false, done := false }

/-- C1 witness: against a table holding only the earlier South car, the
North car's fairness predicate returns true. -/
theorem earlier_car_waiting_iff_witness :
    earlier_car_waiting [sampleCarB] sampleCarA = true :=
  (earlier_car_waiting_iff [sampleCarB] sampleCarA (by decide)).mpr
    ⟨sampleCarB, by decide, by decide, by decide, by decide, by decide,
     by decide, by decide, by decide, by decide⟩

/-- C2: in every state reachable from the initial quadrant state by
interleaved valid-direction acquires and holder releases, a positive
holder count forces a non-free owner, a zero count forces a free owner,
and every current holder's direction equals the owner direction. -/
theorem quad_reachable_invariant (s : quadrant_t) (h : QuadReach s) :
    (0 < s.count → s.owner_dir ≠ -1) ∧
    (s.count = 0 → s.owner_dir = -1) ∧
    (∀ d ∈ s.holders, d = s.owner_dir) :=
  ⟨(quadInv_reach h).2.1, (quadInv_reach h).2.2.1, (quadInv_reach h).2.2.2⟩

/-- C2 witness: the invariant instantiated at the state reached by one
North acquire from the initial state. -/
theorem quad_reachable_invariant_witness :
    (0 < (⟨0, 1, [0]⟩ : quadrant_t).count →
      (⟨0, 1, [0]⟩ : quadrant_t).owner_dir ≠ -1) ∧
    ((⟨0, 1, [0]⟩ : quadrant_t).count = 0 →
      (⟨0, 1, [0]⟩ : quadrant_t).owner_dir = -1) ∧
    (∀ d ∈ (⟨0, 1, [0]⟩ : quadrant_t).holders,
      d = (⟨0, 1, [0]⟩ : quadrant_t).owner_dir) :=
  quad_reachable_invariant ⟨0, 1, [0]⟩
    (QuadReach.step QuadReach.init
      (@QuadStep.acq initQuad ⟨0, 1, [0]⟩ 0 (by decide) (by decide)))

/-- C3: `acquire_quad` succeeds (rather than waiting) exactly when the
quadrant is free or already owned by the caller's direction; on success
the owner becomes the caller's direction and the count grows by exactly
one; and a caller whose direction equals the current owner is never
blocked. -/
theorem acquire_quad_spec (s : quadrant_t) (d : Int) :
    ((acquire_quad s d).isSome ↔ (s.owner_dir = -1 ∨ s.owner_dir = d)) ∧
    (∀ s', acquire_quad s d = some s' →
      s'.owner_dir = d ∧ s'.count = s.count + 1 ∧
      s'.holders = d :: s.holders) ∧
    (s.owner_dir = d → (acquire_quad s d).isSome) := by
  refine ⟨?_, ?_, ?_⟩
  · constructor
    · intro h
      by_contra hng
      simp only [acquire_quad, if_neg hng] at h
      exact absurd h (by simp)
    · intro h
      simp [acquire_quad, if_pos h]
  · intro s' h
    simp only [acquire_quad] at h
    split at h
    · have := (Option.some.inj h).symm
      subst this
      exact ⟨rfl, rfl, rfl⟩
    · exact absurd h (by simp)
  · intro h
    simp [acquire_quad, if_pos (Or.inr h)]

/-- C3 witness: instantiated at a quadrant already owned by direction 2
with one holder. -/
theorem acquire_quad_spec_witness :
    (((acquire_quad ⟨2, 1, [2]⟩ 2).isSome ↔
      ((⟨2, 1, [2]⟩ : quadrant_t).owner_dir = -1 ∨
       (⟨2, 1, [2]⟩ : quadrant_t).owner_dir = 2)) ∧
    (∀ s', acquire_quad ⟨2, 1, [2]⟩ 2 = some s' →
      s'.owner_dir = 2 ∧ s'.count = (⟨2, 1, [2]⟩ : quadrant_t).count + 1 ∧
      s'.holders = 2 :: (⟨2, 1, [2]⟩ : quadrant_t).holders) ∧
    ((⟨2, 1, [2]⟩ : quadrant_t).owner_dir = 2 →
      (acquire_quad ⟨2, 1, [2]⟩ 2).isSome)) :=
  acquire_quad_spec ⟨2, 1, [2]⟩ 2

/-- C5: over the four valid direction symbols, `get_turn_type` returns
Straight (0) exactly when origin equals target, Left (1) exactly for the
four 90° counter-clockwise pairs (north→west, south→east, east→north,
west→south), and Right (2) for every other pair of distinct symbols. -/
theorem get_turn_type_classification :
    ∀ o ∈ validDirChars, ∀ t ∈ validDirChars,
      (get_turn_type o t = 0 ↔ o = t) ∧
      (get_turn_type o t = 1 ↔
        (o = '^' ∧ t = '<') ∨ (o = 'v' ∧ t = '>') ∨
        (o = '>' ∧ t = '^') ∨ (o = '<' ∧ t = 'v')) ∧
      (get_turn_type o t = 2 ↔ o ≠ t ∧
        ¬((o = '^' ∧ t = '<') ∨ (o = 'v' ∧ t = '>') ∨
          (o = '>' ∧ t = '^') ∨ (o = '<' ∧ t = 'v'))) := by decide

/-- C5 witness: the classification instantiated at the north→west pair. -/
theorem get_turn_type_classification_witness :
    (get_turn_type '^' '<' = 0 ↔ ('^':Char) = '<') ∧
    (get_turn_type '^' '<' = 1 ↔
      (('^':Char) = '^' ∧ ('<':Char) = '<') ∨ (('^':Char) = 'v' ∧ ('<':Char) = '>') ∨
      (('^':Char) = '>' ∧ ('<':Char) = '^') ∨ (('^':Char) = '<' ∧ ('<':Char) = 'v')) ∧
    (get_turn_type '^' '<' = 2 ↔ ('^':Char) ≠ '<' ∧
      ¬((('^':Char) = '^' ∧ ('<':Char) = '<') ∨ (('^':Char) = 'v' ∧ ('<':Char) = '>') ∨
        (('^':Char) = '>' ∧ ('<':Char) = '^') ∨ (('^':Char) = '<' ∧ ('<':Char) = 'v'))) :=
  get_turn_type_classification '^' (by decide) '<' (by decide)

/-- C4: `get_quadrant_mask` is total over the 4×4 valid symbol pairs
(hence over all 12 reachable origin×turn combinations): the mask is
nonempty, and the number of quadrants it contains is exactly 1 for a
Right turn, 2 for Straight, and 3 for a Left turn. -/
theorem get_quadrant_mask_total_card :
    ∀ o ∈ validDirChars, ∀ t ∈ validDirChars,
      get_quadrant_mask o t ≠ 0 ∧
      (acquireOrder (get_quadrant_mask o t)).length =
        (if get_turn_type o t = 2 then 1
         else if get_turn_type o t = 0 then 2 else 3) := by decide

/-- C4 witness: the mask for the north→west left turn is nonempty and
contains exactly 3 quadrants. -/
theorem get_quadrant_mask_total_card_witness :
    get_quadrant_mask '^' '<' ≠ 0 ∧
    (acquireOrder (get_quadrant_mask '^' '<')).length =
      (if get_turn_type '^' '<' = 2 then 1
       else if get_turn_type '^' '<' = 0 then 2 else 3) :=
  get_quadrant_mask_total_card '^' (by decide) '<' (by decide)

/-- C9: the crossing durations are the configured constants
5000000 > 4000000 > 3000000 μs, so a Left turn takes strictly longer than
Straight, which takes strictly longer than a Right turn. -/
theorem get_crossing_time_ordering :
    get_crossing_time 1 = DELTA_L ∧ get_crossing_time 0 = DELTA_S ∧
    get_crossing_time 2 = DELTA_R ∧
    DELTA_L = 5000000 ∧ DELTA_S = 4000000 ∧ DELTA_R = 3000000 ∧
    get_crossing_time 0 < get_crossing_time 1 ∧
    get_crossing_time 2 < get_crossing_time 0 := by decide

/-- C7: for every valid direction pair, the quadrants are acquired in
strictly ascending index order, released in strictly descending index
order (the reverse of the acquisition order), and the acquired quadrants
are exactly those of the agent's mask. -/
theorem cross_lock_order :
    ∀ o ∈ validDirChars, ∀ t ∈ validDirChars,
      releaseOrder (get_quadrant_mask o t) =
        (acquireOrder (get_quadrant_mask o t)).reverse ∧
      (acquireOrder (get_quadrant_mask o t)).Pairwise (· < ·) ∧
      (releaseOrder (get_quadrant_mask o t)).Pairwise (· > ·) ∧
      (∀ q ∈ acquireOrder (get_quadrant_mask o t), q < NUM_QUADS) ∧
      (∀ q < NUM_QUADS, (q ∈ acquireOrder (get_quadrant_mask o t) ↔
        get_quadrant_mask o t &&& (1 <<< q) ≠ 0)) := by decide

/-- C7 witness: the ordering facts instantiated at the north→west left
turn, whose mask contains quadrants 0, 1 and 2. -/
theorem cross_lock_order_witness :
    releaseOrder (get_quadrant_mask '^' '<') =
      (acquireOrder (get_quadrant_mask '^' '<')).reverse ∧
    (acquireOrder (get_quadrant_mask '^' '<')).Pairwise (· < ·) ∧
    (releaseOrder (get_quadrant_mask '^' '<')).Pairwise (· > ·) ∧
    (∀ q ∈ acquireOrder (get_quadrant_mask '^' '<'), q < NUM_QUADS) ∧
    (∀ q < NUM_QUADS, (q ∈ acquireOrder (get_quadrant_mask '^' '<') ↔
      get_quadrant_mask '^' '<' &&& (1 <<< q) ≠ 0)) :=
  cross_lock_order '^' (by decide) '<' (by decide)

/-- C6: for every valid direction pair, in the car thread's event
sequence the direction gate is locked exactly once, strictly after the
mandatory stop spin and after `stop_complete_time` is recorded; it is
unlocked exactly once, strictly after every quadrant of the car's mask
has been acquired and after the flags have been flipped to
waiting = false / crossing = true. -/
theorem dir_gate_ordering :
    ∀ o ∈ validDirChars, ∀ t ∈ validDirChars,
      (carTrace (init_car 0 0 o t)).count (Event.lockDir (dir_to_index o)) = 1 ∧
      (carTrace (init_car 0 0 o t)).count (Event.unlockDir (dir_to_index o)) = 1 ∧
      (carTrace (init_car 0 0 o t)).indexOf (Event.spin STOP_TIME) <
        (carTrace (init_car 0 0 o t)).indexOf Event.recordStop ∧
      (carTrace (init_car 0 0 o t)).indexOf Event.recordStop <
        (carTrace (init_car 0 0 o t)).indexOf (Event.lockDir (dir_to_index o)) ∧
      (∀ q ∈ acquireOrder (get_quadrant_mask o t),
        (carTrace (init_car 0 0 o t)).indexOf (Event.acquireQ q) <
          (carTrace (init_car 0 0 o t)).indexOf (Event.unlockDir (dir_to_index o))) ∧
      (carTrace (init_car 0 0 o t)).indexOf Event.setCrossingFlags <
        (carTrace (init_car 0 0 o t)).indexOf (Event.unlockDir (dir_to_index o)) := by
  decide

/-- C6 witness: the gate ordering facts instantiated at the north→west
left turn. -/
theorem dir_gate_ordering_witness :
    (carTrace (init_car 0 0 '^' '<')).count (Event.lockDir (dir_to_index '^')) = 1 ∧
    (carTrace (init_car 0 0 '^' '<')).count (Event.unlockDir (dir_to_index '^')) = 1 ∧
    (carTrace (init_car 0 0 '^' '<')).indexOf (Event.spin STOP_TIME) <
      (carTrace (init_car 0 0 '^' '<')).indexOf Event.recordStop ∧
    (carTrace (init_car 0 0 '^' '<')).indexOf Event.recordStop <
      (carTrace (init_car 0 0 '^' '<')).indexOf (Event.lockDir (dir_to_index '^')) ∧
    (∀ q ∈ acquireOrder (get_quadrant_mask '^' '<'),
      (carTrace (init_car 0 0 '^' '<')).indexOf (Event.acquireQ q) <
        (carTrace (init_car 0 0 '^' '<')).indexOf (Event.unlockDir (dir_to_index '^'))) ∧
    (carTrace (init_car 0 0 '^' '<')).indexOf Event.setCrossingFlags <
      (carTrace (init_car 0 0 '^' '<')).indexOf (Event.unlockDir (dir_to_index '^')) :=
  dir_gate_ordering '^' (by decide) '<' (by decide)

/-- C8 counterexample: an agent built with the unrecognized origin symbol
`x` is constructed normally — the record exists, stores the symbol, and
no abort happens — and the unrecognized symbol reaches the crossing
protocol at runtime, where the direction conversion yields the sentinel
`-1` and the thread proceeds to lock `dir_lock[-1]`. -/
theorem invalid_symbol_constructed :
    (init_car 9 0 'x' '^').dir.dir_original = 'x' ∧
    dir_to_index ((init_car 9 0 'x' '^').dir.dir_original) = -1 ∧
    Event.lockDir (-1) ∈ carTrace (init_car 9 0 'x' '^') := by decide

/-- C8 amended: agent construction performs no validation — a car built
with any unrecognized origin symbol stores the symbol verbatim and is not
aborted; the bad symbol surfaces only at runtime, where `dir_to_index`
yields the sentinel `-1`, so the thread's trace locks the out-of-range
gate `-1`. -/
theorem invalid_symbol_runtime (c : Char) (hc : c ∉ validDirChars)
    (cid : Int) (arr : ℚ) (t : Char) :
    (init_car cid arr c t).dir.dir_original = c ∧
    dir_to_index c = -1 ∧
    Event.lockDir (-1) ∈ carTrace (init_car cid arr c t) := by
  simp only [validDirChars, List.mem_cons, List.mem_singleton, not_or] at hc
  obtain ⟨h1, h2, h3, h4⟩ := hc
  have hdir : dir_to_index c = -1 := by
    simp [dir_to_index, h1, h2, h3, h4]
  refine ⟨rfl, hdir, ?_⟩
  simp [carTrace, arriveTrace, init_car, hdir]

/-- C8 amended witness: instantiated at the symbol `x`. -/
theorem invalid_symbol_runtime_witness :
    ('x' ∉ validDirChars) ∧
    ((init_car 9 0 'x' 'v').dir.dir_original = 'x' ∧
     dir_to_index 'x' = -1 ∧
     Event.lockDir (-1) ∈ carTrace (init_car 9 0 'x' 'v')) :=
  ⟨by decide, invalid_symbol_runtime 'x' (by decide) 9 0 'v'⟩

/-- C10: every character outside the four-symbol alphabet is mapped by
`dir_to_index` to the sentinel `-1` and by `get_quadrant_mask` (as origin,
for any target) to the empty mask 0, so the crossing loop acquires no
quadrants; no error value other than these sentinels is produced. -/
theorem invalid_symbol_sentinels (c : Char) (hc : c ∉ validDirChars) :
    dir_to_index c = -1 ∧
    (∀ t, get_quadrant_mask c t = 0) ∧
    (∀ t, acquireOrder (get_quadrant_mask c t) = []) := by
  simp only [validDirChars, List.mem_cons, List.mem_singleton, not_or] at hc
  obtain ⟨h1, h2, h3, h4⟩ := hc
  have hmask : ∀ t, get_quadrant_mask c t = 0 := by
    intro t
    simp [get_quadrant_mask, h1, h2, h3, h4]
  refine ⟨by simp [dir_to_index, h1, h2, h3, h4], hmask, ?_⟩
  intro t
  rw [hmask t]
  decide

/-- C10 witness: instantiated at the symbol `x` (targets evaluated at the
four valid symbols follow from the universally quantified conjunct). -/
theorem invalid_symbol_sentinels_witness :
    ('x' ∉ validDirChars) ∧
    (dir_to_index 'x' = -1 ∧
     (∀ t, get_quadrant_mask 'x' t = 0) ∧
     (∀ t, acquireOrder (get_quadrant_mask 'x' t) = [])) :=
  ⟨by decide, invalid_symbol_sentinels 'x' (by decide)⟩

end TC

example : TC.get_turn_type '^' '<' = 1 := by decide
example : TC.get_turn_type '^' '^' = 0 := by decide
example : TC.get_turn_type '^' 'v' = 2 := by decide
example : TC.get_quadrant_mask '^' '<' = 7 := by decide
example : TC.dir_to_index 'x' = -1 := by decide
example : TC.acquireOrder 7 = [0, 1, 2] := by decide
example : TC.releaseOrder 7 = [2, 1, 0] := by decide
